import Mathlib

/-!
# Verification of the pokedex-w-speech navigation / cache / speech core

Shallow embedding of `src/src/App.tsx`: the navigation state held in the
React component (`pokemonId`, `randomId`, `isButtonDisabled`, `language`,
`imageKey`), its event handlers (`handleRandom`, `handleNavigation`,
`toggleLanguage`), the prefetch effects keyed on `[pokemonId]` and
`[randomId]`, the debounced speech-announcement effect keyed on
`[pokemon, language]`, and — modelled from the spec, since the query cache
lives in the `@tanstack/react-query` dependency rather than in this
repository's sources — the record cache with in-flight deduplication.

Host randomness (`Math.random()`) is modelled as an injected rational
`r` with `0 ≤ r < 1`; `Math.floor` is `Int.floor`.  JavaScript numbers
holding identifiers are modelled as `ℤ`.
-/

namespace Pokedex

/-- One catalog record, from the `Pokemon` interface in `App.tsx`
(`id`, `name`, and the official-artwork sprite URL). -/
structure Pokemon where
  id : ℤ
  name : String
  spriteUrl : String
deriving DecidableEq, Repr

/-- `const getRandomNum = () => Math.floor(Math.random()*1000)`, with the
host randomness source injected as a rational `r` (intended range
`0 ≤ r < 1`). -/
def getRandomNum (r : ℚ) : ℤ := ⌊r * 1000⌋

/-- The cooldown in milliseconds after a navigation action:
`setTimeout(() => setIsButtonDisabled(false), 2500)`. -/
def cooldownMs : ℕ := 2500

/-- The debounce in milliseconds before a speech announcement:
`setTimeout(() => speakPokemonName(...), 500)`. -/
def speechDebounceMs : ℕ := 500

/-- The component state of `App`, one field per `useState` hook:
`pokemonId` (initially 1), `randomId` (initially `getRandomNum()`),
`isButtonDisabled` (initially false), `language` (initially `"cs-CZ"`),
`imageKey` (initially 0, the render-epoch counter). -/
structure AppState where
  pokemonId : ℤ
  randomId : ℤ
  isButtonDisabled : Bool
  language : String
  imageKey : ℤ
deriving DecidableEq, Repr

/-- The initial component state; `r0` is the randomness consumed by the
`useState(getRandomNum())` initializer. -/
def initState (r0 : ℚ) : AppState :=
  { pokemonId := 1
    randomId := getRandomNum r0
    isButtonDisabled := false
    language := "cs-CZ"
    imageKey := 0 }

/-- The `'prev' | 'next'` argument of `handleNavigation`. -/
inductive NavDir where
  | prev
  | next
deriving DecidableEq, Repr

/-- The identifier update inside `handleNavigation`:
`direction === 'prev' ? Math.max(1, prev - 1) : prev + 1`. -/
def navTarget (d : NavDir) (cur : ℤ) : ℤ :=
  match d with
  | NavDir.prev => max 1 (cur - 1)
  | NavDir.next => cur + 1

/-- Body of `handleNavigation`: disable the buttons, update `pokemonId`,
bump `imageKey` (the cooldown timer that re-enables the buttons is a
separate event, `Action.cooldownElapsed`). -/
def handleNavigation (d : NavDir) (s : AppState) : AppState :=
  { s with
    isButtonDisabled := true
    pokemonId := navTarget d s.pokemonId
    imageKey := s.imageKey + 1 }

/-- Body of `handleRandom`: disable the buttons, set `pokemonId` to the
stored `randomId`, bump `imageKey`, and draw a fresh candidate with
`getRandomNum` (randomness `r` injected). -/
def handleRandom (r : ℚ) (s : AppState) : AppState :=
  { s with
    isButtonDisabled := true
    pokemonId := s.randomId
    imageKey := s.imageKey + 1
    randomId := getRandomNum r }

/-- Body of `toggleLanguage`:
`setLanguage(prev => prev === 'cs-CZ' ? 'en-US' : 'cs-CZ')`. -/
def toggleLanguage (s : AppState) : AppState :=
  { s with language := if s.language = "cs-CZ" then "en-US" else "cs-CZ" }

/-- The user-visible events: the three navigation button presses (the
random one carrying the injected randomness), the locale-toggle press,
and the firing of the 2.5 s cooldown timer. -/
inductive Action where
  | prev
  | next
  | random (r : ℚ)
  | toggleLocale
  | cooldownElapsed
deriving DecidableEq, Repr

/-- One UI event.  The three navigation buttons carry
`disabled={isButtonDisabled}` in the JSX, so a press while the state is
disabled dispatches no handler; the settings (locale) button has no
`disabled` attribute, and the cooldown timer fires unconditionally. -/
def clickStep (s : AppState) : Action → AppState
  | Action.prev => if s.isButtonDisabled then s else handleNavigation NavDir.prev s
  | Action.next => if s.isButtonDisabled then s else handleNavigation NavDir.next s
  | Action.random r => if s.isButtonDisabled then s else handleRandom r s
  | Action.toggleLocale => toggleLanguage s
  | Action.cooldownElapsed => { s with isButtonDisabled := false }

/-- Run a sequence of UI events. -/
def run (s : AppState) (acts : List Action) : AppState :=
  acts.foldl clickStep s

/-- Validity of an event: randomness injected into `handleRandom` comes
from `Math.random()`, hence lies in `[0, 1)`. -/
def actionOk : Action → Prop
  | Action.random r => 0 ≤ r ∧ r < 1
  | _ => True

instance (a : Action) : Decidable (actionOk a) := by
  cases a <;> unfold actionOk <;> infer_instance

/-- The prefetch requests issued by the two `useEffect` hooks when the
state changes from `s` to `s'` in one render: the hook with dependency
array `[pokemonId, queryClient]` prefetches `pokemonId + 1` and re-runs
exactly when `pokemonId` changed; the hook with dependency array
`[randomId, queryClient]` prefetches `randomId` and re-runs exactly when
`randomId` changed. -/
def prefetchesAfter (s s' : AppState) : List ℤ :=
  (if s'.pokemonId ≠ s.pokemonId then [s'.pokemonId + 1] else []) ++
    (if s'.randomId ≠ s.randomId then [s'.randomId] else [])

end Pokedex

namespace Pokedex

/-! ## The speech-announcement effect

`useEffect(..., [pokemon, language])` arms a 500 ms timer speaking the
current record's name in the current language, and its cleanup
(`clearTimeout`) cancels the pending timer whenever the record or the
language changes before it fires. -/

/-- State of the debounced announcer: the armed timer, if any (record
name, language, delay in ms), and the utterances actually spoken so
far, in order. -/
structure SpeechState where
  pendingAnn : Option (String × String × ℕ)
  spoken : List (String × String)
deriving DecidableEq, Repr

/-- Events seen by the announcement effect: the `[pokemon, language]`
dependencies changed (cleanup clears any pending timer, a new 500 ms
timer is armed), or an armed timer's delay elapsed (it fires and speaks). -/
inductive SpeechEvent where
  | recordChange (name lang : String)
  | elapse
deriving DecidableEq, Repr

/-- One step of the announcement effect. -/
def speechStep (t : SpeechState) : SpeechEvent → SpeechState
  | SpeechEvent.recordChange n l =>
      { t with pendingAnn := some (n, l, speechDebounceMs) }
  | SpeechEvent.elapse =>
      match t.pendingAnn with
      | some (n, l, _) => { pendingAnn := none, spoken := t.spoken ++ [(n, l)] }
      | none => t

/-- Run a sequence of announcement events. -/
def speechRun (t : SpeechState) (es : List SpeechEvent) : SpeechState :=
  es.foldl speechStep t

/-- Number of timer firings in a list of announcement events. -/
def countElapses (es : List SpeechEvent) : ℕ :=
  (es.filter (fun e => e = SpeechEvent.elapse)).length

end Pokedex

namespace Pokedex

/-! ## The record cache

Modelled from the spec: the key-value cache with in-flight request
deduplication behind `useQuery`/`prefetchQuery` lives in the
`@tanstack/react-query` dependency, not in this repository's sources.
Spec §4.2: `ensureLoaded(id)` returns the cached record if present,
joins an already in-flight request for `id` if one exists, and otherwise
starts a new fetch; a successful fetch stores the record, a failed fetch
leaves the key absent. -/

/-- A cache slot: a request in flight, or a stored record. -/
inductive CacheEntry where
  | pending
  | loaded (rec : Pokemon)
deriving DecidableEq, Repr

/-- The cache: one optional slot per identifier, plus a count of the
outbound fetches issued so far for each identifier. -/
structure CacheState where
  entries : ℤ → Option CacheEntry
  fetchCount : ℤ → ℕ

/-- The cache with no entries and no fetches issued. -/
def emptyCache : CacheState :=
  { entries := fun _ => none, fetchCount := fun _ => 0 }

/-- Start of `ensureLoaded(id)` / `prefetch(id)`: if the key is absent,
mark it in flight and issue one outbound fetch; if a record is stored or
a request is already in flight, join it — no new fetch. -/
def ensureLoadedStart (id : ℤ) (c : CacheState) : CacheState :=
  match c.entries id with
  | none =>
      { entries := fun j => if j = id then some CacheEntry.pending else c.entries j
        fetchCount := fun j => if j = id then c.fetchCount j + 1 else c.fetchCount j }
  | some _ => c

/-- An in-flight fetch for `id` resolves successfully with record `rec`:
the record is stored. -/
def resolveSuccess (id : ℤ) (rec : Pokemon) (c : CacheState) : CacheState :=
  match c.entries id with
  | some CacheEntry.pending =>
      { c with entries := fun j => if j = id then some (CacheEntry.loaded rec) else c.entries j }
  | _ => c

/-- An in-flight fetch for `id` fails: the error is not cached, the key
becomes absent again. -/
def resolveFailure (id : ℤ) (c : CacheState) : CacheState :=
  match c.entries id with
  | some CacheEntry.pending =>
      { c with entries := fun j => if j = id then none else c.entries j }
  | _ => c

/-- A concrete cache with exactly one request in flight, for identifier 1. -/
def pendingCache : CacheState :=
  { entries := fun j => if j = 1 then some CacheEntry.pending else none
    fetchCount := fun j => if j = 1 then 1 else 0 }

end Pokedex

namespace Pokedex

/-! ## Helper lemmas -/

lemma getRandomNum_nonneg {r : ℚ} (h : 0 ≤ r) : 0 ≤ getRandomNum r :=
  Int.floor_nonneg.mpr (by positivity)

lemma getRandomNum_lt_1000 {r : ℚ} (h : r < 1) : getRandomNum r < 1000 := by
  have hm : r * 1000 < 1000 := by nlinarith
  exact Int.floor_lt.mpr (by push_cast; linarith)

lemma run_nil (s : AppState) : run s [] = s := rfl

lemma run_cons (s : AppState) (a : Action) (acts : List Action) :
    run s (a :: acts) = run (clickStep s a) acts := rfl

lemma clickStep_inv {s : AppState} {a : Action}
    (hs : 0 ≤ s.pokemonId) (hr : 0 ≤ s.randomId) (ha : actionOk a) :
    0 ≤ (clickStep s a).pokemonId ∧ 0 ≤ (clickStep s a).randomId := by
  cases a with
  | prev =>
      by_cases hd : s.isButtonDisabled
      · exact ⟨by simp [clickStep, hd, hs], by simp [clickStep, hd, hr]⟩
      · refine ⟨?_, ?_⟩
        · show 0 ≤ (if s.isButtonDisabled then s
            else handleNavigation NavDir.prev s).pokemonId
          rw [if_neg hd]
          exact le_trans zero_le_one (le_max_left 1 (s.pokemonId - 1))
        · show 0 ≤ (if s.isButtonDisabled then s
            else handleNavigation NavDir.prev s).randomId
          rw [if_neg hd]
          exact hr
  | next =>
      by_cases hd : s.isButtonDisabled
      · exact ⟨by simp [clickStep, hd, hs], by simp [clickStep, hd, hr]⟩
      · refine ⟨?_, ?_⟩
        · show 0 ≤ (if s.isButtonDisabled then s
            else handleNavigation NavDir.next s).pokemonId
          rw [if_neg hd]
          show 0 ≤ s.pokemonId + 1
          omega
        · show 0 ≤ (if s.isButtonDisabled then s
            else handleNavigation NavDir.next s).randomId
          rw [if_neg hd]
          exact hr
  | random r =>
      by_cases hd : s.isButtonDisabled
      · exact ⟨by simp [clickStep, hd, hs], by simp [clickStep, hd, hr]⟩
      · refine ⟨?_, ?_⟩
        · show 0 ≤ (if s.isButtonDisabled then s else handleRandom r s).pokemonId
          rw [if_neg hd]
          exact hr
        · show 0 ≤ (if s.isButtonDisabled then s else handleRandom r s).randomId
          rw [if_neg hd]
          exact getRandomNum_nonneg ha.1
  | toggleLocale => exact ⟨hs, hr⟩
  | cooldownElapsed => exact ⟨hs, hr⟩

lemma run_inv {s : AppState} (acts : List Action)
    (hs : 0 ≤ s.pokemonId) (hr : 0 ≤ s.randomId) (hv : ∀ a ∈ acts, actionOk a) :
    0 ≤ (run s acts).pokemonId ∧ 0 ≤ (run s acts).randomId := by
  induction acts generalizing s with
  | nil => exact ⟨hs, hr⟩
  | cons a acts ih =>
      rw [run_cons]
      have ha : actionOk a := hv a (List.mem_cons_self a acts)
      have h' := clickStep_inv hs hr ha
      exact ih h'.1 h'.2 (fun b hb => hv b (List.mem_cons_of_mem a hb))

lemma clickStep_pos {s : AppState} {a : Action}
    (hs : 1 ≤ s.pokemonId) (hnr : ∀ r : ℚ, a ≠ Action.random r) :
    1 ≤ (clickStep s a).pokemonId := by
  cases a with
  | prev =>
      by_cases hd : s.isButtonDisabled
      · simpa [clickStep, hd] using hs
      · show 1 ≤ (if s.isButtonDisabled then s
          else handleNavigation NavDir.prev s).pokemonId
        rw [if_neg hd]
        exact le_max_left 1 (s.pokemonId - 1)
  | next =>
      by_cases hd : s.isButtonDisabled
      · simpa [clickStep, hd] using hs
      · show 1 ≤ (if s.isButtonDisabled then s
          else handleNavigation NavDir.next s).pokemonId
        rw [if_neg hd]
        show 1 ≤ s.pokemonId + 1
        omega
  | random r => exact absurd rfl (hnr r)
  | toggleLocale => exact hs
  | cooldownElapsed => exact hs

lemma run_pos {s : AppState} (acts : List Action)
    (hs : 1 ≤ s.pokemonId) (hnr : ∀ a ∈ acts, ∀ r : ℚ, a ≠ Action.random r) :
    1 ≤ (run s acts).pokemonId := by
  induction acts generalizing s with
  | nil => exact hs
  | cons a acts ih =>
      rw [run_cons]
      exact ih (clickStep_pos hs (hnr a (List.mem_cons_self a acts)))
        (fun b hb => hnr b (List.mem_cons_of_mem a hb))

lemma speechStep_spoken_le (t : SpeechState) (e : SpeechEvent) :
    (speechStep t e).spoken.length ≤
      t.spoken.length + (if e = SpeechEvent.elapse then 1 else 0) := by
  cases e with
  | recordChange n l => simp [speechStep]
  | elapse =>
      cases h : t.pendingAnn with
      | none => simp [speechStep, h]
      | some x =>
          obtain ⟨n, l, d⟩ := x
          simp [speechStep, h]

lemma countElapses_cons (e : SpeechEvent) (es : List SpeechEvent) :
    countElapses (e :: es) =
      (if e = SpeechEvent.elapse then 1 else 0) + countElapses es := by
  by_cases h : e = SpeechEvent.elapse <;>
    simp [countElapses, List.filter_cons, h]
  omega

lemma speechRun_spoken_le (es : List SpeechEvent) (t : SpeechState) :
    (speechRun t es).spoken.length ≤ t.spoken.length + countElapses es := by
  induction es generalizing t with
  | nil => simp [speechRun, countElapses]
  | cons e es ih =>
      have h1 : speechRun t (e :: es) = speechRun (speechStep t e) es := rfl
      have h2 := speechStep_spoken_le t e
      have h3 := ih (speechStep t e)
      rw [h1, countElapses_cons]
      omega

end Pokedex

namespace Pokedex

/-! ## Claim theorems -/

/-- C10: for every call, `getRandomNum` returns an integer `n` with
`0 ≤ n ≤ 999` (the injected randomness being an `r` with `0 ≤ r < 1`,
the result is `⌊r * 1000⌋`); in particular `0` is a possible return
value (it is returned at `r = 0`). -/
theorem c10_getRandomNum_range (r : ℚ) (h0 : 0 ≤ r) (h1 : r < 1) :
    0 ≤ getRandomNum r ∧ getRandomNum r ≤ 999 ∧ getRandomNum 0 = 0 := by
  refine ⟨getRandomNum_nonneg h0, ?_, ?_⟩
  · have := getRandomNum_lt_1000 h1
    omega
  · norm_num [getRandomNum]

/-- Witness for C10 at the concrete randomness value `r = 0`. -/
theorem c10_witness :
    (0 ≤ (0 : ℚ) ∧ (0 : ℚ) < 1) ∧
      (0 ≤ getRandomNum 0 ∧ getRandomNum 0 ≤ 999 ∧ getRandomNum 0 = 0) :=
  ⟨⟨le_refl 0, zero_lt_one⟩, c10_getRandomNum_range 0 (le_refl 0) zero_lt_one⟩

/-- C4: from an `Idle` (buttons enabled) state with current identifier
`c ≥ 1`, a `prev` press sets the identifier to `max 1 (c - 1)` — in
particular `prev` at identifier 1 leaves it at 1 — and a `next` press
sets it to `c + 1`, with no upper clamp. -/
theorem c4_prev_next (s : AppState) (hd : s.isButtonDisabled = false)
    (hc : 1 ≤ s.pokemonId) :
    (clickStep s Action.prev).pokemonId = max 1 (s.pokemonId - 1) ∧
    (s.pokemonId = 1 → (clickStep s Action.prev).pokemonId = 1) ∧
    (clickStep s Action.next).pokemonId = s.pokemonId + 1 := by
  refine ⟨?_, ?_, ?_⟩
  · simp [clickStep, hd, handleNavigation, navTarget]
  · intro h1
    simp [clickStep, hd, handleNavigation, navTarget, h1]
  · simp [clickStep, hd, handleNavigation, navTarget]

/-- Witness for C4 at the initial state (identifier 1, buttons enabled). -/
theorem c4_witness :
    ((initState 0).isButtonDisabled = false ∧ 1 ≤ (initState 0).pokemonId) ∧
      ((clickStep (initState 0) Action.prev).pokemonId
          = max 1 ((initState 0).pokemonId - 1) ∧
        ((initState 0).pokemonId = 1 →
          (clickStep (initState 0) Action.prev).pokemonId = 1) ∧
        (clickStep (initState 0) Action.next).pokemonId
          = (initState 0).pokemonId + 1) :=
  ⟨⟨rfl, le_refl 1⟩, c4_prev_next (initState 0) rfl (le_refl 1)⟩

/-- C6: a single locale toggle changes neither the current identifier,
nor the lockout flag, nor the render-epoch, in every state; and in any
state whose locale is one of the two enumerated tags (`cs-CZ` or
`en-US` — the only values ever reachable), toggling twice returns the
whole state, locale included, to its original value. -/
theorem c6_toggleLocale (s : AppState) :
    (toggleLanguage s).pokemonId = s.pokemonId ∧
    (toggleLanguage s).isButtonDisabled = s.isButtonDisabled ∧
    (toggleLanguage s).imageKey = s.imageKey ∧
    (s.language = "cs-CZ" ∨ s.language = "en-US" →
      toggleLanguage (toggleLanguage s) = s) := by
  refine ⟨rfl, rfl, rfl, ?_⟩
  rintro (h | h) <;> cases s <;> simp_all [toggleLanguage]

/-- Witness for C6 at the initial state (locale `cs-CZ`). -/
theorem c6_witness :
    ((toggleLanguage (initState 0)).pokemonId = (initState 0).pokemonId ∧
      (toggleLanguage (initState 0)).isButtonDisabled
        = (initState 0).isButtonDisabled ∧
      (toggleLanguage (initState 0)).imageKey = (initState 0).imageKey) ∧
    toggleLanguage (toggleLanguage (initState 0)) = initState 0 :=
  ⟨⟨(c6_toggleLocale (initState 0)).1, (c6_toggleLocale (initState 0)).2.1,
      (c6_toggleLocale (initState 0)).2.2.1⟩,
    (c6_toggleLocale (initState 0)).2.2.2 (Or.inl rfl)⟩

end Pokedex

namespace Pokedex

/-- C2 counterexample: with randomness value 0 — a legal output of
`Math.random()` — the candidate drawn at initialization is 0, which does
not lie in the claimed range [1, 1000); the fresh candidate drawn by a
random action with randomness 0 is likewise 0. -/
theorem c2_counterexample :
    (initState 0).randomId = 0 ∧ ¬(1 ≤ (initState 0).randomId) ∧
    (clickStep (initState 0) (Action.random 0)).randomId = 0 ∧
    ¬(1 ≤ (clickStep (initState 0) (Action.random 0)).randomId) := by
  norm_num [initState, clickStep, handleRandom, getRandomNum]

/-- C2 (amended): after a random action from an `Idle` state, the
displayed identifier equals the previously stored candidate, and the
fresh candidate lies in the integer range [0, 1000) — not [1, 1000) as
claimed; the candidate drawn at initialization also lies in [0, 1000). -/
theorem c2_random_draws (s : AppState) (r : ℚ) (hd : s.isButtonDisabled = false)
    (h0 : 0 ≤ r) (h1 : r < 1) :
    (clickStep s (Action.random r)).pokemonId = s.randomId ∧
    0 ≤ (clickStep s (Action.random r)).randomId ∧
    (clickStep s (Action.random r)).randomId < 1000 ∧
    (∀ r0 : ℚ, 0 ≤ r0 → r0 < 1 →
      0 ≤ (initState r0).randomId ∧ (initState r0).randomId < 1000) := by
  refine ⟨?_, ?_, ?_, ?_⟩
  · simp [clickStep, hd, handleRandom]
  · show 0 ≤ (if s.isButtonDisabled then s else handleRandom r s).randomId
    rw [if_neg (by simp [hd])]
    exact getRandomNum_nonneg h0
  · show (if s.isButtonDisabled then s else handleRandom r s).randomId < 1000
    rw [if_neg (by simp [hd])]
    exact getRandomNum_lt_1000 h1
  · intro r0 g0 g1
    exact ⟨getRandomNum_nonneg g0, getRandomNum_lt_1000 g1⟩

/-- Witness for C2 (amended) at the initial state with randomness 1/2. -/
theorem c2_witness :
    ((initState 0).isButtonDisabled = false ∧ 0 ≤ (1 / 2 : ℚ) ∧ (1 / 2 : ℚ) < 1) ∧
      ((clickStep (initState 0) (Action.random (1 / 2))).pokemonId
          = (initState 0).randomId ∧
        0 ≤ (clickStep (initState 0) (Action.random (1 / 2))).randomId ∧
        (clickStep (initState 0) (Action.random (1 / 2))).randomId < 1000) :=
  ⟨⟨rfl, by norm_num, by norm_num⟩,
    ⟨(c2_random_draws (initState 0) (1 / 2) rfl (by norm_num) (by norm_num)).1,
      (c2_random_draws (initState 0) (1 / 2) rfl (by norm_num) (by norm_num)).2.1,
      (c2_random_draws (initState 0) (1 / 2) rfl (by norm_num) (by norm_num)).2.2.1⟩⟩

/-- C3 counterexample: with initial randomness 0 the stored candidate is
0, and a single random action (with fresh randomness 1/2) sets the
current identifier to 0, violating the claimed invariant `≥ 1`. -/
theorem c3_counterexample :
    (run (initState 0) [Action.random (1 / 2)]).pokemonId = 0 ∧
    ¬(1 ≤ (run (initState 0) [Action.random (1 / 2)]).pokemonId) := by
  norm_num [run, initState, clickStep, handleRandom, getRandomNum]

/-- C3 (amended): starting from identifier 1, after any sequence of
prev, next, random, toggle-locale and cooldown events whose randomness
inputs lie in [0, 1), the current identifier is always ≥ 0 (a random
action can set it to 0 when the drawn candidate is 0); it is ≥ 1
whenever the sequence contains no random action. -/
theorem c3_identifier_invariant (r0 : ℚ) (acts : List Action)
    (h0 : 0 ≤ r0) (hv : ∀ a ∈ acts, actionOk a) :
    0 ≤ (run (initState r0) acts).pokemonId ∧
    ((∀ a ∈ acts, ∀ r : ℚ, a ≠ Action.random r) →
      1 ≤ (run (initState r0) acts).pokemonId) := by
  constructor
  · exact (run_inv acts (by norm_num [initState]) (getRandomNum_nonneg h0) hv).1
  · intro hnr
    exact run_pos acts (by norm_num [initState]) hnr

/-- Witness for C3 (amended) on the event sequence `[next, prev]` from
initial randomness 0. -/
theorem c3_witness :
    (0 ≤ (0 : ℚ) ∧ (∀ a ∈ [Action.next, Action.prev], actionOk a) ∧
      (∀ a ∈ [Action.next, Action.prev], ∀ r : ℚ, a ≠ Action.random r)) ∧
      (0 ≤ (run (initState 0) [Action.next, Action.prev]).pokemonId ∧
        1 ≤ (run (initState 0) [Action.next, Action.prev]).pokemonId) :=
  ⟨⟨le_refl 0, by simp [actionOk], by simp⟩,
    ⟨(c3_identifier_invariant 0 [Action.next, Action.prev] (le_refl 0)
        (by simp [actionOk])).1,
      (c3_identifier_invariant 0 [Action.next, Action.prev] (le_refl 0)
        (by simp [actionOk])).2 (by simp)⟩⟩

end Pokedex

namespace Pokedex

/-- C5 counterexample: from the initial state (identifier 1, buttons
enabled), three successive next presses inside the cooldown window end
at identifier 2, not 1 + 3 = 4 — the first press disables the buttons
(`disabled={isButtonDisabled}`), so the second and third presses
dispatch no handler. -/
theorem c5_counterexample :
    (run (initState 0) [Action.next, Action.next, Action.next]).pokemonId = 2 ∧
    (initState 0).pokemonId = 1 ∧
    (run (initState 0) [Action.next, Action.next, Action.next]).pokemonId
      ≠ 1 + 3 := by
  norm_num [run, initState, clickStep, handleNavigation, navTarget, getRandomNum]

/-- C5 (amended): three successive next presses issued within the
cooldown window from an `Idle` state with current identifier `c` result
in exactly one final displayed identifier, `c + 1` — the first press
enters the lockout and the disabled buttons reject the other two — and
one render-epoch increment; the single resulting record change arms
exactly one announcement, so at most one utterance is spoken, for the
last-resolved record only. -/
theorem c5_rapid_next (s : AppState) (hd : s.isButtonDisabled = false) :
    (run s [Action.next, Action.next, Action.next]).pokemonId = s.pokemonId + 1 ∧
    (run s [Action.next, Action.next, Action.next]).imageKey = s.imageKey + 1 ∧
    (∀ t : SpeechState, ∀ n l : String,
      (speechRun t [SpeechEvent.recordChange n l, SpeechEvent.elapse]).spoken
        = t.spoken ++ [(n, l)] ∧
      (speechRun t [SpeechEvent.recordChange n l, SpeechEvent.elapse]).pendingAnn
        = none) := by
  refine ⟨?_, ?_, ?_⟩
  · simp [run, clickStep, hd, handleNavigation, navTarget]
  · simp [run, clickStep, hd, handleNavigation, navTarget]
  · intro t n l
    constructor <;> rfl

/-- Witness for C5 (amended) at the initial state. -/
theorem c5_witness :
    ((initState 0).isButtonDisabled = false ∧
      (run (initState 0) [Action.next, Action.next, Action.next]).pokemonId
        = (initState 0).pokemonId + 1) ∧
      (speechRun ⟨none, []⟩
          [SpeechEvent.recordChange "ivysaur" "cs-CZ", SpeechEvent.elapse]).spoken
        = [("ivysaur", "cs-CZ")] :=
  ⟨⟨rfl, (c5_rapid_next (initState 0) rfl).1⟩,
    ((c5_rapid_next (initState 0) rfl).2.2 ⟨none, []⟩ "ivysaur" "cs-CZ").1⟩

/-- C9: a speech announcement for a newly available record is scheduled
after a 500 ms debounce (`pendingAnn` is armed with `speechDebounceMs`),
the pending announcement is cancelled — never fired — when a new record
becomes current before the debounce elapses (two consecutive record
changes leave `spoken` untouched and only the second announcement
armed), and each elapse speaks at most one utterance, so the number of
utterances never exceeds the number of elapsed debounce timers. -/
theorem c9_debounce_cancellation :
    (∀ t : SpeechState, ∀ n1 l1 n2 l2 : String,
      speechRun t [SpeechEvent.recordChange n1 l1, SpeechEvent.recordChange n2 l2]
        = { pendingAnn := some (n2, l2, speechDebounceMs), spoken := t.spoken }) ∧
    (∀ t : SpeechState, ∀ es : List SpeechEvent,
      (speechRun t es).spoken.length ≤ t.spoken.length + countElapses es) := by
  constructor
  · intro t n1 l1 n2 l2
    rfl
  · intro t es
    exact speechRun_spoken_le es t

end Pokedex

namespace Pokedex

/-- C8 counterexample: from the initial state (identifier 1), a prev
press enters the lockout and increments the render-epoch, but issues
zero prefetch requests, not two — the effect keyed on `[pokemonId]`
does not re-run because `Math.max(1, 1 - 1) = 1` leaves `pokemonId`
unchanged, and the effect keyed on `[randomId]` does not re-run because
prev never touches `randomId`. -/
theorem c8_counterexample :
    (clickStep (initState 0) Action.prev).imageKey = (initState 0).imageKey + 1 ∧
    prefetchesAfter (initState 0) (clickStep (initState 0) Action.prev) = [] ∧
    (prefetchesAfter (initState 0) (clickStep (initState 0) Action.prev)).length
      ≠ 2 := by
  norm_num [prefetchesAfter, initState, clickStep, handleNavigation, navTarget,
    getRandomNum]

/-- C8 (amended): every navigation action from an `Idle` state (prev,
next, or random) increments the render-epoch by exactly 1, but a
prefetch is issued only when the corresponding effect dependency
changed: a next press issues exactly one prefetch, for the new
`current + 1`; a prev press from `current > 1` issues exactly one
prefetch, for the new `current + 1` (that is, the old `current`); a
prev press at identifier 1 issues none; and a random press whose jump
target differs from the current identifier and whose fresh candidate
differs from the stored one issues two, one for the new `current + 1`
and one for the fresh candidate. -/
theorem c8_epoch_and_prefetches (s : AppState) (r : ℚ)
    (hd : s.isButtonDisabled = false) :
    ((clickStep s Action.prev).imageKey = s.imageKey + 1 ∧
      (clickStep s Action.next).imageKey = s.imageKey + 1 ∧
      (clickStep s (Action.random r)).imageKey = s.imageKey + 1) ∧
    prefetchesAfter s (clickStep s Action.next) = [s.pokemonId + 2] ∧
    (1 < s.pokemonId →
      prefetchesAfter s (clickStep s Action.prev) = [s.pokemonId]) ∧
    (s.pokemonId = 1 → prefetchesAfter s (clickStep s Action.prev) = []) ∧
    (s.randomId ≠ s.pokemonId → getRandomNum r ≠ s.randomId →
      prefetchesAfter s (clickStep s (Action.random r))
        = [s.randomId + 1, getRandomNum r]) := by
  refine ⟨⟨?_, ?_, ?_⟩, ?_, ?_, ?_, ?_⟩
  · simp [clickStep, hd, handleNavigation]
  · simp [clickStep, hd, handleNavigation]
  · simp [clickStep, hd, handleRandom]
  · have h1 : (clickStep s Action.next).pokemonId = s.pokemonId + 1 := by
      simp [clickStep, hd, handleNavigation, navTarget]
    have h2 : (clickStep s Action.next).randomId = s.randomId := by
      simp [clickStep, hd, handleNavigation]
    simp [prefetchesAfter, h1, h2]
    omega
  · intro hgt
    have h1 : (clickStep s Action.prev).pokemonId = s.pokemonId - 1 := by
      simp [clickStep, hd, handleNavigation, navTarget]
      omega
    have h2 : (clickStep s Action.prev).randomId = s.randomId := by
      simp [clickStep, hd, handleNavigation]
    simp [prefetchesAfter, h1, h2]
  · intro heq
    have h1 : (clickStep s Action.prev).pokemonId = s.pokemonId := by
      simp [clickStep, hd, handleNavigation, navTarget, heq]
    have h2 : (clickStep s Action.prev).randomId = s.randomId := by
      simp [clickStep, hd, handleNavigation]
    simp [prefetchesAfter, h1, h2]
  · intro hj hf
    have h1 : (clickStep s (Action.random r)).pokemonId = s.randomId := by
      simp [clickStep, hd, handleRandom]
    have h2 : (clickStep s (Action.random r)).randomId = getRandomNum r := by
      simp [clickStep, hd, handleRandom]
    simp [prefetchesAfter, h1, h2, hj, hf]

/-- Witness for C8 (amended) at the initial state with randomness 1/2,
exercising the next-press and prev-at-1 cases. -/
theorem c8_witness :
    ((initState 0).isButtonDisabled = false ∧ (initState 0).pokemonId = 1) ∧
      ((clickStep (initState 0) Action.next).imageKey
          = (initState 0).imageKey + 1 ∧
        prefetchesAfter (initState 0) (clickStep (initState 0) Action.next)
          = [(initState 0).pokemonId + 2] ∧
        prefetchesAfter (initState 0) (clickStep (initState 0) Action.prev)
          = []) :=
  ⟨⟨rfl, rfl⟩,
    ⟨(c8_epoch_and_prefetches (initState 0) (1 / 2) rfl).1.2.1,
      (c8_epoch_and_prefetches (initState 0) (1 / 2) rfl).2.1,
      (c8_epoch_and_prefetches (initState 0) (1 / 2) rfl).2.2.2.1 rfl⟩⟩

lemma ensureLoadedStart_of_some (x : CacheState) (id : ℤ) (e : CacheEntry)
    (h : x.entries id = some e) : ensureLoadedStart id x = x := by
  unfold ensureLoadedStart
  rw [h]

/-- C1: two concurrent load requests for the same absent identifier —
the second arriving after the first started but before it resolved —
collapse into exactly one outbound fetch: the first marks the key in
flight and fetches, the second joins the in-flight request as a no-op.
Modelled from the spec (§4.2): the deduplicating cache behind
`useQuery`/`prefetchQuery` lives in the `@tanstack/react-query`
dependency, not in this repository's sources. -/
theorem c1_concurrent_dedup (c : CacheState) (id : ℤ)
    (h : c.entries id = none) :
    (ensureLoadedStart id (ensureLoadedStart id c)).fetchCount id
        = c.fetchCount id + 1 ∧
    ensureLoadedStart id (ensureLoadedStart id c) = ensureLoadedStart id c ∧
    (ensureLoadedStart id c).entries id = some CacheEntry.pending := by
  have h1 : ensureLoadedStart id c =
      { entries := fun j => if j = id then some CacheEntry.pending else c.entries j
        fetchCount := fun j => if j = id then c.fetchCount j + 1
          else c.fetchCount j } := by
    unfold ensureLoadedStart
    rw [h]
  have h2 : (ensureLoadedStart id c).entries id = some CacheEntry.pending := by
    rw [h1]
    simp
  have h3 : ensureLoadedStart id (ensureLoadedStart id c)
      = ensureLoadedStart id c :=
    ensureLoadedStart_of_some _ id CacheEntry.pending h2
  refine ⟨?_, h3, h2⟩
  rw [h3, h1]
  simp

/-- Witness for C1 on the empty cache at identifier 1. -/
theorem c1_witness :
    emptyCache.entries 1 = none ∧
      (ensureLoadedStart 1 (ensureLoadedStart 1 emptyCache)).fetchCount 1
        = emptyCache.fetchCount 1 + 1 :=
  ⟨rfl, (c1_concurrent_dedup emptyCache 1 rfl).1⟩

/-- C7: when the in-flight fetch for an identifier fails, the error is
not stored — the key becomes absent — so the next load attempt for the
same identifier issues a fresh outbound fetch.  Modelled from the spec
(§4.2, §7): the cache behind `useQuery`/`prefetchQuery` lives in the
`@tanstack/react-query` dependency, not in this repository's sources. -/
theorem c7_error_not_cached (c : CacheState) (id : ℤ)
    (h : c.entries id = some CacheEntry.pending) :
    (resolveFailure id c).entries id = none ∧
    (ensureLoadedStart id (resolveFailure id c)).fetchCount id
        = c.fetchCount id + 1 ∧
    (ensureLoadedStart id (resolveFailure id c)).entries id
        = some CacheEntry.pending := by
  have h1 : resolveFailure id c =
      { c with entries := fun j => if j = id then none else c.entries j } := by
    unfold resolveFailure
    rw [h]
  have h2 : (resolveFailure id c).entries id = none := by
    rw [h1]
    simp
  have h3 : ensureLoadedStart id (resolveFailure id c) =
      { entries := fun j => if j = id then some CacheEntry.pending
          else (resolveFailure id c).entries j
        fetchCount := fun j => if j = id then (resolveFailure id c).fetchCount j + 1
          else (resolveFailure id c).fetchCount j } := by
    unfold ensureLoadedStart
    rw [h2]
  refine ⟨h2, ?_, ?_⟩
  · rw [h3]
    simp [h1]
  · rw [h3]
    simp

/-- Witness for C7 on a cache holding one in-flight request for
identifier 1. -/
theorem c7_witness :
    pendingCache.entries 1 = some CacheEntry.pending ∧
      ((resolveFailure 1 pendingCache).entries 1 = none ∧
        (ensureLoadedStart 1 (resolveFailure 1 pendingCache)).fetchCount 1
          = pendingCache.fetchCount 1 + 1) :=
  ⟨rfl, ⟨(c7_error_not_cached pendingCache 1 rfl).1,
    (c7_error_not_cached pendingCache 1 rfl).2.1⟩⟩

end Pokedex
